import Mathlib

/-!
# Shallow embedding of the `SolarCalculator` core

This file embeds the `SolarCalculator` class of
`client/src/components/LoadingOverlay.tsx`, together with the data model of
`client/src/types/solar.ts`, and proves properties of the metrics
aggregator, the mission-energy estimator and the system-losses helper.

JavaScript numbers are modelled as rationals `ℚ`; the single use of
`Math.sqrt` (inside `calculateVariance`) is modelled on the reals via
`Real.sqrt`.  A JavaScript record (`Record<string, number>`) is modelled as
an association list in insertion order, so `Object.values` is `map Prod.snd`.
-/

/-- The part of a `NASAPowerResponse` that `calculateMetrics` reads:
`properties.parameter.ALLSKY_SFC_SW_DWN` (daily irradiance) and
`properties.parameter.T2M` (daily temperature), each a record keyed by date
string.  The optional `RH2M`/`WS10M`/`CLOUD_AMT` records are never read by
the calculator and are omitted. -/
structure NASAPowerResponse where
  ALLSKY_SFC_SW_DWN : List (String × ℚ)
  T2M : List (String × ℚ)

/-- `SolarMetrics` of `types/solar.ts`.  `variance` is the one field fed
through `Math.sqrt`, hence real-valued in the model. -/
structure SolarMetrics where
  dailyIrradiance : ℚ
  efficiency : ℚ
  temperature : ℚ
  peakOutput : ℚ
  averageOutput : ℚ
  variance : ℝ

/-- `MissionParameters` of `types/solar.ts`; `batteryCapacity` is optional
and unused by the estimator. -/
structure MissionParameters where
  panelArea : ℚ
  systemEfficiency : ℚ
  missionDuration : ℚ
  batteryCapacity : Option ℚ := none

/-- `CalculationResults` of `types/solar.ts`. -/
structure CalculationResults where
  totalEnergyOutput : ℚ
  dailyAverage : ℚ
  peakOutput : ℚ
  efficiency : ℚ
  batteryRequired : ℚ
  missionViability : Bool
  recommendations : List String

/-- `Object.values(record)` for a date-keyed record. -/
def objectValues (record : List (String × ℚ)) : List ℚ :=
  record.map Prod.snd

/-- `values.reduce((sum, val) => sum + val, 0) / values.length`, the
arithmetic-mean pattern used for `dailyIrradiance`, `temperature` and inside
`calculateVariance`.  (On an empty list JavaScript produces `NaN`; here
division by zero yields the junk value `0` — all claims assume a non-empty
series.) -/
def meanOf (values : List ℚ) : ℚ :=
  values.sum / values.length

/-- `Math.max(...values)`.  JavaScript returns `-Infinity` on an empty
argument list; the `[]` case here is a junk value, only ever hit outside the
non-empty precondition. -/
def mathMax : List ℚ → ℚ
  | [] => 0
  | v :: vs => vs.foldl max v

namespace SolarCalculator

/-- The constant `tempCoefficient = -0.004` of `calculateMetrics`. -/
def tempCoefficient : ℚ := -0.004

/-- The constant `referenceTemp = 25` of `calculateMetrics`. -/
def referenceTemp : ℚ := 25

/-- `tempLoss = Math.max(0, (temperature - referenceTemp) * tempCoefficient)`
from `calculateMetrics` (line 38 of `LoadingOverlay.tsx`). -/
def tempLoss (temperature : ℚ) : ℚ :=
  max 0 ((temperature - referenceTemp) * tempCoefficient)

/-- `SolarCalculator.calculateVariance` (private): despite the name it is the
population standard deviation,
`Math.sqrt(squaredDiffs.reduce((sum, val) => sum + val, 0) / values.length)`. -/
noncomputable def calculateVariance (values : List ℚ) : ℝ :=
  Real.sqrt (((values.map fun val => (val - meanOf values) ^ 2).sum / values.length : ℚ))

/-- `SolarCalculator.calculateMetrics`. -/
noncomputable def calculateMetrics (nasaData : NASAPowerResponse) : SolarMetrics :=
  let irradianceValues := objectValues nasaData.ALLSKY_SFC_SW_DWN
  let temperatureValues := objectValues nasaData.T2M
  let dailyIrradiance := meanOf irradianceValues
  let temperature := meanOf temperatureValues
  let efficiency := max 0.1 (1 + tempLoss temperature)
  let peakOutput := mathMax irradianceValues
  let averageOutput := dailyIrradiance
  let variance := calculateVariance irradianceValues
  { dailyIrradiance := dailyIrradiance
    efficiency := efficiency * 100
    temperature := temperature
    peakOutput := peakOutput
    averageOutput := averageOutput
    variance := variance }

/-- `SolarCalculator.generateRecommendations` (private): the imperative
`push` sequence rendered as list concatenation in the same fixed order. -/
def generateRecommendations (metrics : SolarMetrics) (parameters : MissionParameters)
    (totalEnergy batteryRequired : ℚ) : List String :=
  (if 6.5 < metrics.dailyIrradiance then
    ["Excellent solar resource - ideal for space missions"]
  else if 4.5 < metrics.dailyIrradiance then
    ["Good solar resource - suitable for most applications"]
  else
    ["Consider high-efficiency panels or backup power systems"])
  ++ (if 35 < metrics.temperature then
        ["High temperatures detected - implement cooling systems"]
      else if metrics.temperature < -20 then
        ["Extreme cold conditions - use cold-weather rated equipment"]
      else [])
  ++ (if 2000 < batteryRequired then
        ["Large battery system required - consider modular design"]
      else [])
  ++ (if totalEnergy < 1000 then
        ["Energy output below mission requirements - increase panel area"]
      else [])
  ++ (if parameters.systemEfficiency < 0.20 then
        ["Consider upgrading to higher efficiency panels (>20%)"]
      else [])

/-- `SolarCalculator.calculateMissionEnergy`. -/
def calculateMissionEnergy (metrics : SolarMetrics)
    (parameters : MissionParameters) : CalculationResults :=
  let dailyEnergyOutput := metrics.dailyIrradiance * parameters.panelArea *
    parameters.systemEfficiency * (metrics.efficiency / 100)
  let totalEnergyOutput := dailyEnergyOutput * parameters.missionDuration
  let lunarNightHours : ℚ := 350
  let dailyPowerConsumption := dailyEnergyOutput / 24
  let batteryRequired := dailyPowerConsumption * lunarNightHours
  let minRequiredEnergy : ℚ := 1000
  let missionViability := decide (minRequiredEnergy ≤ totalEnergyOutput)
  let recommendations :=
    generateRecommendations metrics parameters totalEnergyOutput batteryRequired
  { totalEnergyOutput := totalEnergyOutput
    dailyAverage := dailyEnergyOutput
    peakOutput := metrics.peakOutput * parameters.panelArea * parameters.systemEfficiency
    efficiency := metrics.efficiency
    batteryRequired := batteryRequired
    missionViability := missionViability
    recommendations := recommendations }

/-- `SolarCalculator.calculateOptimalTilt`. -/
def calculateOptimalTilt (latitude : ℚ) : ℚ :=
  |latitude|

/-- `SolarCalculator.calculateSystemLosses`: base 0.14, `else if` pair of
temperature adjustments, truthiness-guarded humidity adjustment, capped by
`Math.min(losses, 0.3)`. -/
def calculateSystemLosses (temperature : ℚ) (humidity : Option ℚ) : ℚ :=
  let losses : ℚ := 0.14
  let losses :=
    if 35 < temperature then losses + 0.02
    else if temperature < -10 then losses + 0.01
    else losses
  let losses :=
    match humidity with
    | some h => if 80 < h then losses + 0.01 else losses
    | none => losses
  min losses 0.3

end SolarCalculator

open SolarCalculator

/-! ## Helper lemmas about the temperature-efficiency model -/

theorem tempLoss_nonneg (t : ℚ) : 0 ≤ tempLoss t :=
  le_max_left 0 _

theorem tempLoss_pos_iff (t : ℚ) : 0 < tempLoss t ↔ t < referenceTemp := by
  unfold tempLoss tempCoefficient referenceTemp
  rw [lt_max_iff]
  constructor
  · rintro (h | h)
    · exact absurd h (lt_irrefl 0)
    · nlinarith
  · intro h
    right
    nlinarith

theorem floor_clamp_inactive (t : ℚ) : max 0.1 (1 + tempLoss t) = 1 + tempLoss t :=
  max_eq_right (by have := tempLoss_nonneg t; norm_num; linarith)

/-! ## Concrete series used as inputs -/

/-- Series with a single reading, mean temperature 15 °C (below reference). -/
def coldSeries15 : NASAPowerResponse :=
  ⟨[("d1", 5)], [("d1", 15)]⟩

/-- Series with a single reading, mean temperature 35 °C (above reference). -/
def hotSeries35 : NASAPowerResponse :=
  ⟨[("d1", 5)], [("d1", 35)]⟩

/-- Series with a single reading, mean temperature 20 °C (below reference). -/
def coldSeries20 : NASAPowerResponse :=
  ⟨[("d1", 5)], [("d1", 20)]⟩

/-- The worked aggregation example of spec §8: irradiance `{d1: 5, d2: 6, d3: 7}`,
temperature `{d1: 25, d2: 35, d3: 45}`. -/
def workedSeries : NASAPowerResponse :=
  ⟨[("d1", 5), ("d2", 6), ("d3", 7)], [("d1", 25), ("d2", 35), ("d3", 45)]⟩

/-! ## C1 -/

/-- C1 (counter-evidence, code bug): on a series whose mean temperature is
15 °C the code returns `efficiency = 104`, outside the claimed interval
[10, 100].  The clamped `tempLoss` is positive for cold temperatures, so the
efficiency exceeds 100% — contradicting the code's own comments
("lose ~0.4% per °C above 25°C", "Minimum 10% efficiency"). -/
theorem calculateMetrics_efficiency_104_on_cold :
    (calculateMetrics coldSeries15).efficiency = 104 ∧
      100 < (calculateMetrics coldSeries15).efficiency := by
  have h : (calculateMetrics coldSeries15).efficiency =
      max 0.1 (1 + tempLoss (meanOf [15])) * 100 := rfl
  rw [h]
  norm_num [meanOf, tempLoss, tempCoefficient, referenceTemp, max_def]

/-! ## C2 -/

/-- C2 (counter-evidence, code bug): a mean temperature of 35 °C (above the
25 °C reference) yields `efficiency = 100`, not strictly below 100, and a
mean temperature of 20 °C (below the reference) yields `efficiency = 102`,
not exactly 100: the sign of `tempCoefficient` inverts the documented
derating. -/
theorem calculateMetrics_efficiency_hot_cold_inverted :
    (calculateMetrics hotSeries35).efficiency = 100 ∧
      (calculateMetrics hotSeries35).temperature = 35 ∧
      (calculateMetrics coldSeries20).efficiency = 102 ∧
      (calculateMetrics coldSeries20).temperature = 20 := by
  have h1 : (calculateMetrics hotSeries35).efficiency =
      max 0.1 (1 + tempLoss (meanOf [35])) * 100 := rfl
  have h2 : (calculateMetrics hotSeries35).temperature = meanOf [35] := rfl
  have h3 : (calculateMetrics coldSeries20).efficiency =
      max 0.1 (1 + tempLoss (meanOf [20])) * 100 := rfl
  have h4 : (calculateMetrics coldSeries20).temperature = meanOf [20] := rfl
  rw [h1, h2, h3, h4]
  norm_num [meanOf, tempLoss, tempCoefficient, referenceTemp, max_def]

/-! ## C3 -/

/-- C3: for every non-empty input series the efficiency returned by
`calculateMetrics` is at least 100, because `tempLoss` is non-negative
(positive exactly when the mean temperature is below the 25 °C reference),
so the 10% floor clamp `max(0.1, 1 + tempLoss)` never activates. -/
theorem calculateMetrics_efficiency_ge_100 (nasaData : NASAPowerResponse)
    (hne : nasaData.ALLSKY_SFC_SW_DWN ≠ [] ∧ nasaData.T2M ≠ []) :
    100 ≤ (calculateMetrics nasaData).efficiency ∧
      (∀ t : ℚ, 0 ≤ tempLoss t ∧ (0 < tempLoss t ↔ t < referenceTemp) ∧
        max 0.1 (1 + tempLoss t) = 1 + tempLoss t) := by
  refine ⟨?_, fun t => ⟨tempLoss_nonneg t, tempLoss_pos_iff t, floor_clamp_inactive t⟩⟩
  have h : (calculateMetrics nasaData).efficiency =
      max 0.1 (1 + tempLoss (meanOf (objectValues nasaData.T2M))) * 100 := rfl
  rw [h, floor_clamp_inactive]
  have := tempLoss_nonneg (meanOf (objectValues nasaData.T2M))
  nlinarith

/-- C3 witness: the efficiency bound instantiated on the worked series. -/
theorem calculateMetrics_efficiency_ge_100_witness :
    100 ≤ (calculateMetrics workedSeries).efficiency :=
  (calculateMetrics_efficiency_ge_100 workedSeries
    ⟨by simp [workedSeries], by simp [workedSeries]⟩).1

/-! ## C4 -/

/-- C4: the worked aggregation example.  On irradiance `{5, 6, 7}` and
temperature `{25, 35, 45}` the aggregator returns `dailyIrradiance = 6`,
`temperature = 35`, `peakOutput = 7`, `averageOutput = 6`, and `variance`
(the population standard deviation) `= sqrt(2/3)`; the internal
`tempLoss` at the mean temperature 35 is 0 under the literal sign rule. -/
theorem calculateMetrics_worked_example :
    (calculateMetrics workedSeries).dailyIrradiance = 6 ∧
      (calculateMetrics workedSeries).temperature = 35 ∧
      (calculateMetrics workedSeries).peakOutput = 7 ∧
      (calculateMetrics workedSeries).averageOutput = 6 ∧
      (calculateMetrics workedSeries).variance = Real.sqrt (2 / 3) ∧
      tempLoss 35 = 0 := by
  have hdi : (calculateMetrics workedSeries).dailyIrradiance = meanOf [5, 6, 7] := rfl
  have ht : (calculateMetrics workedSeries).temperature = meanOf [25, 35, 45] := rfl
  have hp : (calculateMetrics workedSeries).peakOutput = mathMax [5, 6, 7] := rfl
  have ha : (calculateMetrics workedSeries).averageOutput = meanOf [5, 6, 7] := rfl
  have hv : (calculateMetrics workedSeries).variance = calculateVariance [5, 6, 7] := rfl
  refine ⟨by rw [hdi]; norm_num [meanOf], by rw [ht]; norm_num [meanOf], ?_,
    by rw [ha]; norm_num [meanOf], ?_, ?_⟩
  · rw [hp]
    norm_num [mathMax, List.foldl, max_def]
  · rw [hv, calculateVariance]
    have hrad : ((([5, 6, 7] : List ℚ).map fun val => (val - meanOf [5, 6, 7]) ^ 2).sum /
        (([5, 6, 7] : List ℚ).length : ℚ)) = 2 / 3 := by
      norm_num [meanOf]
    rw [hrad]
    norm_num
  · norm_num [tempLoss, tempCoefficient, referenceTemp, max_def]

/-! ## C9: max is at least the mean -/

theorem le_foldl_max (vs : List ℚ) (a : ℚ) : a ≤ vs.foldl max a := by
  induction vs generalizing a with
  | nil => exact le_refl a
  | cons v vs ih => exact le_trans (le_max_left a v) (ih (max a v))

theorem mem_le_foldl_max (vs : List ℚ) (a b : ℚ) (hb : b ∈ vs) : b ≤ vs.foldl max a := by
  induction vs generalizing a with
  | nil => cases hb
  | cons v vs ih =>
    rcases List.mem_cons.mp hb with h | h
    · subst h
      exact le_trans (le_max_right a b) (le_foldl_max vs (max a b))
    · exact ih (max a v) h

theorem mem_le_mathMax (l : List ℚ) (b : ℚ) (hb : b ∈ l) : b ≤ mathMax l := by
  cases l with
  | nil => cases hb
  | cons v vs =>
    rcases List.mem_cons.mp hb with h | h
    · subst h
      exact le_foldl_max vs b
    · exact mem_le_foldl_max vs v b h

theorem meanOf_le_mathMax (l : List ℚ) (hl : l ≠ []) : meanOf l ≤ mathMax l := by
  have hlen : 0 < (l.length : ℚ) := by
    have : 0 < l.length := List.length_pos.mpr hl
    exact_mod_cast this
  rw [meanOf, div_le_iff₀ hlen]
  calc l.sum ≤ l.length • mathMax l :=
        List.sum_le_card_nsmul l _ (fun x hx => mem_le_mathMax l x hx)
    _ = mathMax l * l.length := by rw [nsmul_eq_mul]; ring

/-- C9: for every non-empty input irradiance series, the `peakOutput` of the
returned metrics (the maximum reading) is at least its `dailyIrradiance`
(the mean reading). -/
theorem calculateMetrics_peakOutput_ge_dailyIrradiance (nasaData : NASAPowerResponse)
    (hne : nasaData.ALLSKY_SFC_SW_DWN ≠ []) :
    (calculateMetrics nasaData).dailyIrradiance ≤ (calculateMetrics nasaData).peakOutput := by
  have hdi : (calculateMetrics nasaData).dailyIrradiance =
      meanOf (objectValues nasaData.ALLSKY_SFC_SW_DWN) := rfl
  have hp : (calculateMetrics nasaData).peakOutput =
      mathMax (objectValues nasaData.ALLSKY_SFC_SW_DWN) := rfl
  rw [hdi, hp]
  apply meanOf_le_mathMax
  simp only [objectValues, ne_eq, List.map_eq_nil_iff]
  exact hne

/-- C9 witness: on the cold single-reading series, the mean 5 is at most the
maximum 5. -/
theorem calculateMetrics_peakOutput_ge_dailyIrradiance_witness :
    (calculateMetrics coldSeries15).dailyIrradiance ≤
      (calculateMetrics coldSeries15).peakOutput :=
  calculateMetrics_peakOutput_ge_dailyIrradiance coldSeries15 (by simp [coldSeries15])

/-! ## C5 and C6: the estimator formulas -/

/-- The metrics of the worked estimation example of spec §8:
`dailyIrradiance = 6`, `efficiency = 90` (the other fields are irrelevant to
the estimator's numeric outputs). -/
def estMetrics : SolarMetrics :=
  { dailyIrradiance := 6, efficiency := 90, temperature := 20,
    peakOutput := 7, averageOutput := 6, variance := 0 }

/-- The parameters of the worked estimation example of spec §8:
`panelArea = 100`, `systemEfficiency = 0.22`, `missionDuration = 14`. -/
def estParameters : MissionParameters :=
  { panelArea := 100, systemEfficiency := 0.22, missionDuration := 14 }

/-- C5: `calculateMissionEnergy` computes
`dailyAverage = dailyIrradiance * panelArea * systemEfficiency * (efficiency / 100)`,
`totalEnergyOutput = dailyAverage * missionDuration`,
`batteryRequired = (dailyAverage / 24) * 350`, and
`missionViability ↔ totalEnergyOutput ≥ 1000`; on the worked example
(`dailyIrradiance = 6`, `efficiency = 90`, `panelArea = 100`,
`systemEfficiency = 0.22`, `missionDuration = 14`) it returns
`dailyAverage = 118.8`, `totalEnergyOutput = 1663.2`,
`missionViability = true`, `batteryRequired = 1732.5`. -/
theorem calculateMissionEnergy_formulas :
    (∀ (metrics : SolarMetrics) (parameters : MissionParameters),
      (calculateMissionEnergy metrics parameters).dailyAverage =
          metrics.dailyIrradiance * parameters.panelArea * parameters.systemEfficiency *
            (metrics.efficiency / 100) ∧
        (calculateMissionEnergy metrics parameters).totalEnergyOutput =
          (calculateMissionEnergy metrics parameters).dailyAverage *
            parameters.missionDuration ∧
        (calculateMissionEnergy metrics parameters).batteryRequired =
          (calculateMissionEnergy metrics parameters).dailyAverage / 24 * 350 ∧
        ((calculateMissionEnergy metrics parameters).missionViability = true ↔
          1000 ≤ (calculateMissionEnergy metrics parameters).totalEnergyOutput)) ∧
      (calculateMissionEnergy estMetrics estParameters).dailyAverage = 118.8 ∧
      (calculateMissionEnergy estMetrics estParameters).totalEnergyOutput = 1663.2 ∧
      (calculateMissionEnergy estMetrics estParameters).missionViability = true ∧
      (calculateMissionEnergy estMetrics estParameters).batteryRequired = 1732.5 := by
  constructor
  · intro metrics parameters
    refine ⟨rfl, rfl, rfl, ?_⟩
    simp [calculateMissionEnergy]
  · refine ⟨?_, ?_, ?_, ?_⟩ <;>
      norm_num [calculateMissionEnergy, estMetrics, estParameters]

/-- C6: the `peakOutput` result field is
`metrics.peakOutput * panelArea * systemEfficiency`, with the
temperature-derated factor `efficiency / 100` not applied — unlike
`dailyAverage`, which does carry that factor. -/
theorem calculateMissionEnergy_peakOutput (metrics : SolarMetrics)
    (parameters : MissionParameters) :
    (calculateMissionEnergy metrics parameters).peakOutput =
        metrics.peakOutput * parameters.panelArea * parameters.systemEfficiency ∧
      (calculateMissionEnergy metrics parameters).dailyAverage =
        metrics.dailyIrradiance * parameters.panelArea * parameters.systemEfficiency *
          (metrics.efficiency / 100) :=
  ⟨rfl, rfl⟩

/-! ## C7: strict resource-tier boundaries -/

/-- Metrics whose `dailyIrradiance` sits exactly on the 6.5 boundary. -/
def boundaryMetrics65 : SolarMetrics :=
  { dailyIrradiance := 6.5, efficiency := 100, temperature := 20,
    peakOutput := 7, averageOutput := 6.5, variance := 0 }

/-- Metrics whose `dailyIrradiance` sits exactly on the 4.5 boundary. -/
def boundaryMetrics45 : SolarMetrics :=
  { dailyIrradiance := 4.5, efficiency := 100, temperature := 20,
    peakOutput := 5, averageOutput := 4.5, variance := 0 }

/-- Parameters used to instantiate the boundary checks. -/
def boundaryParameters : MissionParameters :=
  { panelArea := 100, systemEfficiency := 0.22, missionDuration := 14 }

/-- C7: the resource-tier comparisons are strict: at `dailyIrradiance = 6.5`
the first recommendation is the "good resource" message, not the "excellent"
one, and at `dailyIrradiance = 4.5` it is the "consider high-efficiency
panels or backup" message, not the "good resource" one. -/
theorem generateRecommendations_strict_boundaries (metrics : SolarMetrics)
    (parameters : MissionParameters) :
    (metrics.dailyIrradiance = 6.5 →
        ((calculateMissionEnergy metrics parameters).recommendations).head? =
          some "Good solar resource - suitable for most applications") ∧
      (metrics.dailyIrradiance = 4.5 →
        ((calculateMissionEnergy metrics parameters).recommendations).head? =
          some "Consider high-efficiency panels or backup power systems") := by
  constructor <;> intro h <;>
    norm_num [calculateMissionEnergy, generateRecommendations, h]

/-- C7 witness: the two boundary cases instantiated on concrete metrics. -/
theorem generateRecommendations_strict_boundaries_witness :
    ((calculateMissionEnergy boundaryMetrics65 boundaryParameters).recommendations).head? =
        some "Good solar resource - suitable for most applications" ∧
      ((calculateMissionEnergy boundaryMetrics45 boundaryParameters).recommendations).head? =
        some "Consider high-efficiency panels or backup power systems" :=
  ⟨(generateRecommendations_strict_boundaries boundaryMetrics65 boundaryParameters).1 rfl,
    (generateRecommendations_strict_boundaries boundaryMetrics45 boundaryParameters).2 rfl⟩

/-! ## C8: advisory ordering -/

/-- Metrics triggering every advisory: `dailyIrradiance = 3`,
`temperature = 40` (whence `efficiency = 100` under the aggregator's literal
formula). -/
def stressMetrics : SolarMetrics :=
  { dailyIrradiance := 3, efficiency := 100, temperature := 40,
    peakOutput := 3, averageOutput := 3, variance := 0 }

/-- Parameters triggering every advisory together with `stressMetrics`:
`systemEfficiency = 0.15`, sized so that `batteryRequired > 2000` and
`totalEnergyOutput < 1000`. -/
def stressParameters : MissionParameters :=
  { panelArea := 400, systemEfficiency := 0.15, missionDuration := 5 }

/-- C8: on an input firing every advisory (`dailyIrradiance = 3`,
`temperature = 40`, `systemEfficiency = 0.15`, computed
`batteryRequired = 2625 > 2000` and `totalEnergyOutput = 900 < 1000`) the
recommendations are exactly the resource-tier, temperature, battery,
panel-area and efficiency-upgrade messages in that order; and for every
input, exactly one of the three resource-tier messages comes first. -/
theorem generateRecommendations_ordering :
    (calculateMissionEnergy stressMetrics stressParameters).recommendations =
        ["Consider high-efficiency panels or backup power systems",
          "High temperatures detected - implement cooling systems",
          "Large battery system required - consider modular design",
          "Energy output below mission requirements - increase panel area",
          "Consider upgrading to higher efficiency panels (>20%)"] ∧
      2000 < (calculateMissionEnergy stressMetrics stressParameters).batteryRequired ∧
      (calculateMissionEnergy stressMetrics stressParameters).totalEnergyOutput < 1000 ∧
      (∀ (metrics : SolarMetrics) (parameters : MissionParameters),
        ((calculateMissionEnergy metrics parameters).recommendations).head? =
            some "Excellent solar resource - ideal for space missions" ∨
          ((calculateMissionEnergy metrics parameters).recommendations).head? =
            some "Good solar resource - suitable for most applications" ∨
          ((calculateMissionEnergy metrics parameters).recommendations).head? =
            some "Consider high-efficiency panels or backup power systems") := by
  refine ⟨?_, ?_, ?_, ?_⟩
  · norm_num [calculateMissionEnergy, generateRecommendations, stressMetrics, stressParameters]
  · norm_num [calculateMissionEnergy, stressMetrics, stressParameters]
  · norm_num [calculateMissionEnergy, stressMetrics, stressParameters]
  · intro metrics parameters
    simp only [calculateMissionEnergy, generateRecommendations]
    split_ifs <;> simp

/-! ## C10: system losses -/

/-- C10: `calculateSystemLosses` returns 0.14, plus 0.02 when the
temperature exceeds 35, plus 0.01 when it is below -10 (the two temperature
adjustments can never both apply), plus 0.01 when a humidity above 80 is
supplied; the result never exceeds 0.30. -/
theorem calculateSystemLosses_spec (temperature : ℚ) (humidity : Option ℚ) :
    calculateSystemLosses temperature humidity =
        0.14 + (if 35 < temperature then 0.02 else 0) +
          (if temperature < -10 then 0.01 else 0) +
          (match humidity with
            | some h => if 80 < h then (0.01 : ℚ) else 0
            | none => 0) ∧
      ¬(35 < temperature ∧ temperature < -10) ∧
      calculateSystemLosses temperature humidity ≤ 0.3 := by
  refine ⟨?_, fun hc => by linarith [hc.1, hc.2], ?_⟩
  · unfold calculateSystemLosses
    rcases humidity with _ | h <;>
      · simp only [min_def]
        split_ifs <;> linarith
  · unfold calculateSystemLosses
    rcases humidity with _ | h <;>
      · simp only [min_def]
        split_ifs <;> linarith
